import Mathlib

/-!
Verification of `archive_desktop.py` (desktop-archive-util).

The script archives a local directory into a gzip-compressed tarball,
builds a tab-separated manifest of the tarball entries, and uploads a
directory-marker object, the archive, and the manifest to a
date-partitioned location in an object-storage bucket.

This file shallowly embeds the script: pure key construction
(`os.path.join`, `get_prefix`), the manifest writer
(`create_index_from_archive`), the upload calls (`store_file_at_path`,
`create_directory`) as constructions of stored-object records, the
shell-glob/tar semantics of `create_archive`, the credential fallback
in `__main__`, and the straight-line orchestration `archive_files`.
External effects (clock reads, subprocess execution, file contents on
disk) are threaded as explicit parameters, consumed in the order the
source reads them.
-/

/-- One reading of the host clock, as the script consumes it:
`datetime.datetime.now().strftime("%Y-%m-%d")` yields `date`;
`int(time.time())` yields `unix`. -/
structure ClockReading where
  date : String
  unix : Nat
deriving Repr, DecidableEq

/-- An object as written to the bucket by one `Key.set_contents_from_*`
call: the key, the body bytes (modelled as a string), the supplied
headers (content type and `x-amz-meta-*` entries, in order), and the
canned access policy. -/
structure StoredObject where
  key : String
  body : String
  headers : List (String × String)
  policy : String
deriving Repr, DecidableEq

/-- Looks up a header value by name in a stored object. -/
def headerOf (o : StoredObject) (k : String) : Option String :=
  Option.map (fun h => h.2) (List.find? (fun h => h.1 = k) o.headers)

/-- Python `s.startswith(pre)`, computed on the underlying character
lists so that it evaluates inside the kernel. -/
def strHasPre (pre s : String) : Bool :=
  List.isPrefixOf pre.data s.data

/-- Python `s.endswith(suf)`, computed on the underlying character
lists so that it evaluates inside the kernel. -/
def strHasSuf (suf s : String) : Bool :=
  List.isSuffixOf suf.data s.data

/-- One step of POSIX `os.path.join`: the exact fold body of
`posixpath.join` — an absolute component replaces the path, a component
after an empty or slash-terminated path is appended directly, and
otherwise a single separator is inserted. -/
def pathJoinStep (a b : String) : String :=
  if strHasPre "/" b then b
  else if a = "" || strHasSuf "/" a then a ++ b
  else a ++ "/" ++ b

/-- `os.path.join(a, *cs)` on a POSIX host, as the script calls it. -/
def osPathJoin (a : String) (cs : List String) : String :=
  List.foldl pathJoinStep a cs

/-- The manager state the claims need: the bucket key path given by
`--bucket-prefix` (default `"desktop"`), stored as `self.remote_path`. -/
structure DesktopArchiveManager where
  remote_path : String
deriving Repr, DecidableEq

/-- Embeds `DesktopArchiveManager.get_prefix`:
`os.path.join(self.remote_path, datetime.datetime.now().strftime("%Y-%m-%d"), *components)`.
The clock value consumed by the call is passed in as `date`. -/
def getDatedKey (m : DesktopArchiveManager) (date : String)
    (components : List String) : String :=
  osPathJoin m.remote_path (date :: components)

/-- Embeds `DesktopArchiveManager.store_file_at_path`: uploads the full
contents of the local file (`fileContents`) at `remote_path`, with
content type `application/octet-stream`, metadata
`mtime = str(int(time.time()))` read at upload time, and policy
`private`. -/
def store_file_at_path (fileContents : String) (remote_path : String)
    (now : Nat) : StoredObject :=
  ⟨remote_path, fileContents,
    [("Content-Type", "application/octet-stream"),
     ("x-amz-meta-mtime", toString now)],
    "private"⟩

/-- Embeds `DesktopArchiveManager.create_directory`: uploads the empty
string at exactly the `pfx` key with content type
`application/x-directory`, fixed inode-like metadata, and the current
upload timestamp, with policy `private`. -/
def create_directory (pfx : String) (now : Nat) : StoredObject :=
  ⟨pfx, "",
    [("Content-Type", "application/x-directory"),
     ("x-amz-meta-gid", "20"),
     ("x-amz-meta-uid", "501"),
     ("x-amz-meta-mode", "16877"),
     ("x-amz-meta-mtime", toString now)],
    "private"⟩

/-- Embeds `DesktopArchiveManager.create_index_from_archive`: the loop
`for member in archive.getmembers(): out.write(u"%s\t%s\n" % (member.name, member.size))`
accumulating onto the (initially empty) output file. Each archive
member is a `(name, size)` pair, in the internal order of the archive. -/
def create_index_from_archive (members : List (String × Nat)) : String :=
  List.foldl (fun out m => out ++ m.1 ++ "\t" ++ toString m.2 ++ "\n") "" members

/-- The manifest format as the spec words it, stated independently of
the writer loop: one line per member, `<name>\t<size>\n`, joined in
member order. Compared against `create_index_from_archive`. -/
def manifestSpecLines (members : List (String × Nat)) : String :=
  String.join (List.map (fun m => m.1 ++ "\t" ++ toString m.2 ++ "\n") members)

/-- Result of `subprocess.Popen(...).wait()`: the exit status of the
external `tar` command (its console output goes to the terminal and is
never captured). -/
structure SubprocessResult where
  exitCode : Int
deriving Repr, DecidableEq

/-- Embeds the return behaviour of `DesktopArchiveManager.create_archive`:
`tempfile.mkstemp()` allocates `tempfilename`, the `tar` subprocess is
awaited (`proc.wait()`), and `tempfilename` is returned with the exit
status discarded and never inspected. -/
def create_archive (tempfilename : String) (proc : SubprocessResult) : String :=
  let _exitStatus := proc.exitCode
  tempfilename

/-- A node of the local source directory tree: a regular file with a
byte size, or a directory with its child entries. -/
inductive FsEntry where
  | file (name : String) (size : Nat)
  | dir (name : String) (entries : List FsEntry)
deriving Repr

/-- The own file name of the entry (one path component). -/
def FsEntry.name : FsEntry → String
  | .file n _ => n
  | .dir n _ => n

mutual

/-- The tar member listing of one entry handed to `tar -zcvf`, relative
paths built from `pfx`: a file contributes one member with its size, a
directory contributes a member of size 0 followed by the recursive
listing of its children. -/
def tarList (pfx : String) : FsEntry → List (String × Nat)
  | .file n s => [(pfx ++ n, s)]
  | .dir n es => (pfx ++ n, 0) :: tarListAll (pfx ++ n ++ "/") es

/-- The concatenated tar member listing of a list of entries. -/
def tarListAll (pfx : String) : List FsEntry → List (String × Nat)
  | [] => []
  | e :: es => tarList pfx e ++ tarListAll pfx es

end

/-- The shell glob `*` that `tar -zcvf %s *` receives via
`shell=True` with `cwd=path`: it expands to the directory entries
whose names do not begin with a dot. -/
def globStar (entries : List FsEntry) : List FsEntry :=
  List.filter (fun e => !strHasPre "." (FsEntry.name e)) entries

/-- The member set of the archive produced by
`DesktopArchiveManager.create_archive` on a directory with the given
entries (when the external `tar` succeeds): the recursive listing of
the glob-matched top-level entries, with relative paths. -/
def create_archive_members (entries : List FsEntry) : List (String × Nat) :=
  tarListAll "" (globStar entries)

/-- The events of one `archive_files` run, in the order the source
lines execute them. -/
inductive StepEvent where
  | createArchive
  | createIndex
  | createDirectory (key : String)
  | storeFile (key : String)
deriving Repr, DecidableEq

/-- The observable outcome of one `archive_files` run: the objects
written to the bucket, in upload order, and the step trace. -/
structure ArchiveRun where
  uploads : List StoredObject
  trace : List StepEvent
deriving Repr, DecidableEq

/-- Embeds `DesktopArchiveManager.archive_files`, the straight-line
orchestration:

    archive_path = self.create_archive(self.local_path)
    index_path = self.create_index_from_archive(archive_path)
    self.create_directory(self.get_prefix())
    archive = self.store_file_at_path(archive_path, self.get_prefix("archive.tar.gz"))
    index = self.store_file_at_path(index_path, self.get_prefix("index.tsv.txt"))

`clock` is the stream of host-clock readings; reads are consumed in
source order — a date read inside each of the three `get_prefix` calls
and a `time.time()` read inside `create_directory` and each
`store_file_at_path`. `tmpArchive` is the temp path `mkstemp`
allocates, `tarProc` the awaited subprocess, `archiveBytes` the bytes
the external `tar` left in the temp file, and `archiveMembers` the
member list `tarfile.open(...).getmembers()` reports. -/
def archive_files (m : DesktopArchiveManager) (clock : Nat → ClockReading)
    (tmpArchive : String) (tarProc : SubprocessResult)
    (archiveBytes : String) (archiveMembers : List (String × Nat)) : ArchiveRun :=
  let _archive_path := create_archive tmpArchive tarProc
  let indexBody := create_index_from_archive archiveMembers
  let p0 := getDatedKey m (clock 0).date []
  let dirObj := create_directory p0 (clock 1).unix
  let p1 := getDatedKey m (clock 2).date ["archive.tar.gz"]
  let archiveObj := store_file_at_path archiveBytes p1 (clock 3).unix
  let p2 := getDatedKey m (clock 4).date ["index.tsv.txt"]
  let indexObj := store_file_at_path indexBody p2 (clock 5).unix
  ⟨[dirObj, archiveObj, indexObj],
   [StepEvent.createArchive, StepEvent.createIndex, StepEvent.createDirectory p0,
    StepEvent.storeFile p1, StepEvent.storeFile p2]⟩

/-- Embeds `get_access_key_and_secret_from_s3fs`:
`open("~/.passwd-s3fs").read().strip().split(":")`. -/
def get_access_key_and_secret_from_s3fs (contents : String) : List String :=
  String.splitOn (String.trim contents) ":"

/-- Embeds the credential-default block of `__main__`.
`fileContents` is `some` text when `~/.passwd-s3fs` opens,
`none` when opening raises `IOError`. On success the two fields are
unpacked into `access_default, secret_default`. In the `except
IOError` branch the source assigns `access_default = None` and
`key_default = None`; `secret_default` is never bound, so evaluating
the `--aws-secret-key` default (`default=secret_default`) raises
`NameError`. The result is the pair of defaults, or the uncaught
exception the run dies with. -/
def mainCredentialSetup (fileContents : Option String) :
    Except String (Option String × Option String) :=
  match fileContents with
  | some contents =>
    match get_access_key_and_secret_from_s3fs contents with
    | [a, s] => Except.ok (some a, some s)
    | _ => Except.error "ValueError: not enough values to unpack"
  | none => Except.error "NameError: name secret_default is not defined"

/-- The manager for the default bucket key path `"desktop"`. -/
def mDesktop : DesktopArchiveManager := ⟨"desktop"⟩

/-- A run whose every clock reading falls on 2024-03-05. -/
def clock305 : Nat → ClockReading := fun _ => ⟨"2024-03-05", 1709600000⟩

/-- A run that crosses midnight between the directory-marker upload and
the archive-key computation: the first two clock reads fall on
2024-03-05, the later ones on 2024-03-06. -/
def clockSkew : Nat → ClockReading :=
  fun n => if n ≤ 1 then ⟨"2024-03-05", 1709682000⟩ else ⟨"2024-03-06", 1709683000⟩

/-- The date-partition segment of an object key: the second
`/`-separated field, read off the underlying character list (the
characters after the first `/` and before the next one). -/
def dateSeg (key : String) : String :=
  String.mk (List.takeWhile (fun c => c ≠ '/')
    (List.tail (List.dropWhile (fun c => c ≠ '/') key.data)))

/-- `String.join` peels off the head string. -/
theorem string_join_cons (s : String) (l : List String) :
    String.join (s :: l) = s ++ String.join l := by
  apply String.ext
  simp [String.data_join]

/-- Folding the manifest-writing loop body over the members appends the
joined per-member lines to the accumulator. -/
theorem manifest_foldl_eq (ms : List (String × Nat)) : ∀ acc : String,
    List.foldl (fun out m => out ++ m.1 ++ "\t" ++ toString m.2 ++ "\n") acc ms
      = acc ++ manifestSpecLines ms := by
  induction ms with
  | nil => exact fun acc => (String.append_empty acc).symm
  | cons m ms ih =>
    intro acc
    rw [List.foldl_cons, ih]
    simp [manifestSpecLines, string_join_cons, String.append_assoc]

/-- Membership in the concatenated tar listing of a list of entries is
membership in the listing of one of them. -/
theorem mem_tarListAll (x : String × Nat) (pfx : String) (es : List FsEntry) :
    x ∈ tarListAll pfx es ↔ ∃ e, e ∈ es ∧ x ∈ tarList pfx e := by
  induction es with
  | nil => simp [tarListAll]
  | cons e es ih =>
    simp only [tarListAll, List.mem_append, ih, List.mem_cons]
    constructor
    · rintro (h | ⟨e', he', hx⟩)
      · exact ⟨e, Or.inl rfl, h⟩
      · exact ⟨e', Or.inr he', hx⟩
    · rintro ⟨e', (rfl | he'), hx⟩
      · exact Or.inl hx
      · exact Or.inr ⟨e', he', hx⟩

/-- C1. The claim asserts the three uploaded keys for bucket key path
`desktop` on 2024-03-05 are `desktop/2024-03-05/` (with a trailing
slash), `desktop/2024-03-05/archive.tar.gz` and
`desktop/2024-03-05/index.tsv.txt`. It is false: `os.path.join` with no
further components produces the directory-marker key without a trailing
slash. -/
theorem c1_counterexample_marker_key_trailing_slash :
    List.map (fun o => o.key)
        (archive_files mDesktop clock305 "/tmp/archive" ⟨0⟩ "" []).uploads
      ≠ ["desktop/2024-03-05/", "desktop/2024-03-05/archive.tar.gz",
         "desktop/2024-03-05/index.tsv.txt"] := by
  decide

/-- C1 (amended). For bucket key path `desktop` on a run whose clock
reads all fall on 2024-03-05, the three keys written to the bucket are
exactly `desktop/2024-03-05` (no trailing slash),
`desktop/2024-03-05/archive.tar.gz` and
`desktop/2024-03-05/index.tsv.txt`, whatever the temp path, subprocess
outcome, archive bytes and archive members are. -/
theorem c1_keys_on_2024_03_05 (tmpArchive : String) (tarProc : SubprocessResult)
    (archiveBytes : String) (archiveMembers : List (String × Nat)) :
    List.map (fun o => o.key)
        (archive_files mDesktop clock305 tmpArchive tarProc archiveBytes archiveMembers).uploads
      = ["desktop/2024-03-05", "desktop/2024-03-05/archive.tar.gz",
         "desktop/2024-03-05/index.tsv.txt"] := rfl

/-- C2. The claim asserts the three keys always share one snapshot of
the current date regardless of when each key is computed. It is false:
each `get_prefix` call re-reads the clock, so a run crossing midnight
between the marker upload and the archive-key computation puts the
marker and the archive in different date partitions. -/
theorem c2_counterexample_dates_diverge :
    dateSeg (List.getD (List.map (fun o => o.key)
        (archive_files mDesktop clockSkew "/tmp/archive" ⟨0⟩ "" []).uploads) 0 "")
      ≠ dateSeg (List.getD (List.map (fun o => o.key)
        (archive_files mDesktop clockSkew "/tmp/archive" ⟨0⟩ "" []).uploads) 1 "") := by
  decide

/-- C2 (amended). If the three date reads of one run all return the
same date `d` — i.e. the run does not cross midnight between key
computations — then the directory marker, the archive object and the
manifest object all land under the single date partition `d`. -/
theorem c2_keys_share_date_when_clock_stable (m : DesktopArchiveManager)
    (clock : Nat → ClockReading) (tmpArchive : String) (tarProc : SubprocessResult)
    (archiveBytes : String) (archiveMembers : List (String × Nat)) (d : String)
    (h0 : (clock 0).date = d) (h2 : (clock 2).date = d) (h4 : (clock 4).date = d) :
    List.map (fun o => o.key)
        (archive_files m clock tmpArchive tarProc archiveBytes archiveMembers).uploads
      = [getDatedKey m d [], getDatedKey m d ["archive.tar.gz"],
         getDatedKey m d ["index.tsv.txt"]] := by
  simp [archive_files, store_file_at_path, create_directory, h0, h2, h4]

/-- Witness for C2 at a concrete stable-clock run. -/
theorem c2_keys_share_date_witness :
    List.map (fun o => o.key)
        (archive_files mDesktop clock305 "/tmp/archive" ⟨0⟩ "" []).uploads
      = [getDatedKey mDesktop "2024-03-05" [],
         getDatedKey mDesktop "2024-03-05" ["archive.tar.gz"],
         getDatedKey mDesktop "2024-03-05" ["index.tsv.txt"]] :=
  c2_keys_share_date_when_clock_stable mDesktop clock305 "/tmp/archive" ⟨0⟩ "" []
    "2024-03-05" rfl rfl rfl

/-- C3. The manifest written by `create_index_from_archive` is exactly
one line per archive member, in member order, each line the member
name, one tab, the decimal size and a newline; in particular on
`[("a.txt", 10), ("sub/b.txt", 20)]` it is
`"a.txt\t10\nsub/b.txt\t20\n"`. -/
theorem c3_manifest_one_line_per_member :
    (∀ ms : List (String × Nat), create_index_from_archive ms = manifestSpecLines ms) ∧
      create_index_from_archive [("a.txt", 10), ("sub/b.txt", 20)]
        = "a.txt\t10\nsub/b.txt\t20\n" := by
  constructor
  · intro ms
    have h := manifest_foldl_eq ms ""
    rw [String.empty_append] at h
    exact h
  · rfl

/-- C4. The claim asserts an absent `~/.passwd-s3fs` is non-fatal, with
both defaults falling back to unset. The code contradicts its own
evident intent: the `except IOError` branch assigns `key_default`
instead of `secret_default`, so `secret_default` is unbound and the run
dies with a `NameError` while building the argument parser. This
theorem evaluates the embedded credential setup at the failing input. -/
theorem c4_absent_credential_file_is_fatal :
    mainCredentialSetup none
      = Except.error "NameError: name secret_default is not defined" := rfl

/-- C5. `create_archive` returns the allocated temp path whatever the
awaited subprocess reports: the exit status is never inspected, so the
result is independent of it, and the (total) function never fails. -/
theorem c5_create_archive_ignores_subprocess (tempfilename : String)
    (p q : SubprocessResult) :
    create_archive tempfilename p = tempfilename ∧
      create_archive tempfilename p = create_archive tempfilename q :=
  ⟨rfl, rfl⟩

/-- C6. The claim asserts every file and subdirectory under the source
directory is packed. It is false: the shell glob `*` in
`tar -zcvf %s *` skips top-level entries whose names begin with a dot,
so a top-level `.secret` file is in the directory listing but not among
the archive members. -/
theorem c6_counterexample_hidden_file_skipped :
    (".secret", 5) ∈ tarListAll "" [FsEntry.file ".secret" 5, FsEntry.file "a.txt" 3] ∧
      (".secret", 5) ∉ create_archive_members
        [FsEntry.file ".secret" 5, FsEntry.file "a.txt" 3] := by
  decide

/-- C6 (amended). `create_archive` packs, with relative paths
preserved, exactly the recursive contents of the top-level entries
whose names do not begin with a dot: a `(path, size)` pair is an
archive member iff it lies in the tar listing of some non-hidden
top-level entry. -/
theorem c6_members_are_unhidden_subtrees (entries : List FsEntry)
    (p : String) (s : Nat) :
    (p, s) ∈ create_archive_members entries ↔
      ∃ e, e ∈ entries ∧ strHasPre "." (FsEntry.name e) = false ∧
        (p, s) ∈ tarList "" e := by
  rw [create_archive_members, globStar, mem_tarListAll]
  constructor
  · rintro ⟨e, he, hx⟩
    rw [List.mem_filter] at he
    exact ⟨e, he.1, by simpa using he.2, hx⟩
  · rintro ⟨e, he, hname, hx⟩
    exact ⟨e, List.mem_filter.2 ⟨he, by simpa using hname⟩, hx⟩

/-- C7. Every `store_file_at_path` upload stores the full local-file
contents as the body at the requested key, with content type
`application/octet-stream`, metadata `mtime` equal to the upload-time
Unix timestamp, and the `private` access policy. -/
theorem c7_store_file_contract (fileContents remoteKey : String) (now : Nat) :
    (store_file_at_path fileContents remoteKey now).key = remoteKey ∧
      (store_file_at_path fileContents remoteKey now).body = fileContents ∧
      headerOf (store_file_at_path fileContents remoteKey now) "Content-Type"
        = some "application/octet-stream" ∧
      headerOf (store_file_at_path fileContents remoteKey now) "x-amz-meta-mtime"
        = some (toString now) ∧
      (store_file_at_path fileContents remoteKey now).policy = "private" :=
  ⟨rfl, rfl, rfl, rfl, rfl⟩

/-- C8. Every `create_directory` upload stores a zero-byte body at
exactly the given key, with content type `application/x-directory` and
metadata holding the fixed group id 20, the fixed owner id 501, the
fixed mode bits 16877 and the upload-time Unix timestamp. -/
theorem c8_create_directory_contract (pfx : String) (now : Nat) :
    (create_directory pfx now).key = pfx ∧
      (create_directory pfx now).body = "" ∧
      headerOf (create_directory pfx now) "Content-Type"
        = some "application/x-directory" ∧
      headerOf (create_directory pfx now) "x-amz-meta-gid" = some "20" ∧
      headerOf (create_directory pfx now) "x-amz-meta-uid" = some "501" ∧
      headerOf (create_directory pfx now) "x-amz-meta-mode" = some "16877" ∧
      headerOf (create_directory pfx now) "x-amz-meta-mtime" = some (toString now) :=
  ⟨rfl, rfl, rfl, rfl, rfl, rfl, rfl⟩

/-- C9. Every `archive_files` run performs exactly the linear step
sequence: create the archive, create the index from it, upload the
directory marker, upload the archive object, upload the manifest
object — with no branching; in particular both file uploads come after
the directory-marker upload. -/
theorem c9_run_is_linear (m : DesktopArchiveManager) (clock : Nat → ClockReading)
    (tmpArchive : String) (tarProc : SubprocessResult)
    (archiveBytes : String) (archiveMembers : List (String × Nat)) :
    (archive_files m clock tmpArchive tarProc archiveBytes archiveMembers).trace
      = [StepEvent.createArchive, StepEvent.createIndex,
         StepEvent.createDirectory (getDatedKey m (clock 0).date []),
         StepEvent.storeFile (getDatedKey m (clock 2).date ["archive.tar.gz"]),
         StepEvent.storeFile (getDatedKey m (clock 4).date ["index.tsv.txt"])] := rfl

/-- C10. The directory-marker object is uploaded with the `private`
access policy — the same policy `store_file_at_path` sets on the
archive and manifest objects. -/
theorem c10_marker_policy_private (pfx : String) (now : Nat)
    (fileContents remoteKey : String) (now2 : Nat) :
    (create_directory pfx now).policy = "private" ∧
      (create_directory pfx now).policy
        = (store_file_at_path fileContents remoteKey now2).policy :=
  ⟨rfl, rfl⟩
